import Mathlib

/-!  Formal model of the Generac MobileLink API client
     (custom_components/generac: api.py and sensor.py), as a shallow
     embedding.  The network, `json.loads`, `datetime.strptime` and the
     BeautifulSoup form extraction are oracles supplied through an
     environment; everything else is translated directly from the source.
     The repository's models.py (dataclasses parsed by dacite) is not in
     the source tree; those definitions are modelled from the spec and say
     so in their doc comments. -/

/-- JSON values as produced by `response.json()` and `json.loads`
    (numbers restricted to integers; nothing here depends on fractional
    numerics). -/
inductive Json where
  | null
  | bool (b : Bool)
  | num (n : Int)
  | str (s : String)
  | arr (elems : List Json)
  | obj (fields : List (String × Json))

/-- Python exception classes the modelled code paths can raise. -/
inductive PyErr where
  | sessionExpired (msg : String)
  | invalidCredentials (msg : String)
  | ioError (msg : String)
  | valueError (msg : String)
  | typeError (msg : String)
  | daciteError (msg : String)
  deriving DecidableEq, Repr

/-- Name of the Python exception class of an error value (`IOError` is an
    alias of `OSError` in Python 3; dacite failures subclass
    `DaciteError`). -/
def PyErr.className : PyErr → String
  | .sessionExpired _ => "SessionExpiredException"
  | .invalidCredentials _ => "InvalidCredentialsException"
  | .ioError _ => "OSError"
  | .valueError _ => "ValueError"
  | .typeError _ => "TypeError"
  | .daciteError _ => "DaciteError"

/-- True exactly on the session-expiry exception. -/
def PyErr.isExpired : PyErr → Bool
  | .sessionExpired _ => true
  | _ => false

/-- True exactly when a computation raised the internal session-expiry
    signal. -/
def isExpiredExc {α : Type} : Except PyErr α → Bool
  | .error e => e.isExpired
  | .ok _ => false

inductive LogLevel where
  | debug | info | error
  deriving DecidableEq, Repr

/-- Labels for the HTTP requests a run issues (instrumentation of the
    trace; the concrete URL strings are still what is passed to the
    network oracle). -/
inductive Req where
  | list5
  | list2
  | detail5 (id : Int)
  | detail1 (id : Int)
  | signIn
  | selfAsserted
  | confirmed
  | formPost (action : String)
  deriving DecidableEq, Repr

/-- Outcome of one `aiohttp` GET against a data endpoint: either the call
    itself raises, or it yields a status code and, when `response.json()`
    succeeds, a decoded body (`none` as the body means `response.json()`
    raises). -/
inductive NetResponse where
  | netError
  | resp (status : Nat) (body : Option Json)

/-- Result of a modelled operation together with the log lines it emitted
    and the requests it issued, in order. -/
structure TraceOut (α : Type) where
  result : α
  logs : List (LogLevel × String)
  reqs : List Req

def prependReq {α : Type} (rs : List Req) (t : TraceOut α) : TraceOut α :=
  ⟨t.result, t.logs, rs ++ t.reqs⟩

inductive AuthMethod where
  | token | cookies | username_password
  deriving DecidableEq, Repr

/-- The mutable client fields set by GeneracApiClient.__init__
    (api.py 38-80) and updated by login / async_get_data. -/
structure ClientState where
  username : Option String
  password : Option String
  cookies : Option String
  auth_token : Option String
  auth_method : AuthMethod
  headers : List (String × String)
  logged_in : Bool
  csrf : String
  deriving DecidableEq, Repr

/-- Python truthiness of an optional string (`None` and the empty string
    are falsy). -/
def truthy : Option String → Bool
  | none => false
  | some s => !(s == "")

/-- GeneracApiClient.__init__ (api.py 38-80): pick the auth method from
    the credentials given (token beats cookies beats username/password)
    and preset the corresponding headers; only token mode starts logged
    in. -/
def mkClient (username password cookies auth_token : Option String) : ClientState :=
  if truthy auth_token then
    { username := username, password := password, cookies := cookies,
      auth_token := auth_token, auth_method := .token,
      headers := [
        (("Host"), ("app.mobilelinkgen.com")),
        (("Accept"), ("application/json")),
        (("Authorization"), ("Bearer ") ++ (auth_token.getD (""))),
        (("User-Agent"), ("mobilelink/75633 CFNetwork/3826.600.41 Darwin/24.6.0")),
        (("Accept-Language"), ("en-US,en;q=0.9"))],
      logged_in := true, csrf := ("") }
  else if truthy cookies then
    { username := username, password := password, cookies := cookies,
      auth_token := auth_token, auth_method := .cookies,
      headers := [
        (("User-Agent"), ("Mozilla/5.0 (Windows NT 10.0; Win64; x64) AppleWebKit/537.36 (KHTML, like Gecko) Chrome/122.0.0.0 Safari/537.36")),
        (("Accept"), ("application/json, text/plain, */*")),
        (("Accept-Language"), ("en-US,en;q=0.9")),
        (("Accept-Encoding"), ("gzip, deflate, br")),
        (("Connection"), ("keep-alive")),
        (("Cookie"), (cookies.getD ("")))],
      logged_in := false, csrf := ("") }
  else
    { username := username, password := password, cookies := cookies,
      auth_token := auth_token, auth_method := .username_password,
      headers := [
        (("User-Agent"), ("Mozilla/5.0 (Windows NT 10.0; Win64; x64) AppleWebKit/537.36 (KHTML, like Gecko) Chrome/122.0.0.0 Safari/537.36")),
        (("Accept"), ("application/json, text/plain, */*")),
        (("Accept-Language"), ("en-US,en;q=0.9")),
        (("Accept-Encoding"), ("gzip, deflate, br")),
        (("Connection"), ("keep-alive"))],
      logged_in := false, csrf := ("") }

/-- GeneracApiClient.get_endpoint (api.py 131-155): classify one
    data-endpoint response.  Status 204 is the no-data outcome; any other
    non-200 status raises SessionExpiredException; a 200 body is returned
    decoded; any other exception (the network call or the JSON decode
    raising) is re-wrapped into IOError, while SessionExpiredException is
    re-raised as itself. -/
def get_endpoint (net : String → NetResponse) (endpoint : String) :
    Except PyErr (Option Json) :=
  match net endpoint with
  | .netError => .error (.ioError (""))
  | .resp status body =>
    if status = 204 then .ok none
    else if status ≠ 200 then
      .error (.sessionExpired (("API returned status code: ") ++ toString status ++ (" ")))
    else
      match body with
      | none => .error (.ioError (""))
      | some j => .ok (some j)

def splitlinesAux : List Char → List Char → List String
  | [], acc => if acc.isEmpty then [] else [String.mk acc.reverse]
  | '\r' :: '\n' :: rest, acc => String.mk acc.reverse :: splitlinesAux rest []
  | '\r' :: rest, acc => String.mk acc.reverse :: splitlinesAux rest []
  | '\n' :: rest, acc => String.mk acc.reverse :: splitlinesAux rest []
  | c :: rest, acc => splitlinesAux rest (c :: acc)

/-- str.splitlines restricted to the line terminators LF, CRLF and CR. -/
def splitlines (s : String) : List String :=
  splitlinesAux s.data []

def get_setting_json_lines (jsonLoads : String → Except String Json) :
    List String → Except PyErr (Option Json)
  | [] => .ok none
  | l :: ls =>
    if l.startsWith ("var SETTINGS = ") && l.endsWith (";") then
      match jsonLoads ((l.drop (("var SETTINGS = ").length)).dropRight ((";").length)) with
      | .ok j => .ok (some j)
      | .error m => .error (.valueError m)
    else get_setting_json_lines jsonLoads ls

/-- get_setting_json (api.py 31-34): scan the page's lines for the first
    one of the shape `var SETTINGS = ...;` and json.loads its payload;
    no such line yields None, and a json.loads failure (ValueError)
    propagates. -/
def get_setting_json (jsonLoads : String → Except String Json) (page : String) :
    Except PyErr (Option Json) :=
  get_setting_json_lines jsonLoads (splitlines page)

/-- Modelled from the spec: models.py is not under src; spec section 3
    gives SignInConfig as two optional string fields parsed by
    dacite.from_dict out of the settings JSON mapping. -/
structure SignInConfig where
  csrf : Option String
  transId : Option String
  deriving DecidableEq, Repr

/-- Lookup of a key in a decoded JSON object's field list. -/
def jsonField (fields : List (String × Json)) (k : String) : Option Json :=
  match fields.find? (fun p => p.1 == k) with
  | some p => some p.2
  | none => none

/-- Modelled from the spec: dacite semantics of an Optional[str] field —
    an absent or null field is None, a string is kept, any other shape is
    a dacite error. -/
def optStrField (fields : List (String × Json)) (k : String) :
    Except PyErr (Option String) :=
  match jsonField fields k with
  | none => .ok none
  | some .null => .ok none
  | some (.str s) => .ok (some s)
  | some _ => .error (.daciteError ("wrong type"))

/-- Modelled from the spec: dacite.from_dict(SignInConfig, data); data
    must be a mapping, both fields are optional strings. -/
def fromDictSignInConfig : Json → Except PyErr SignInConfig
  | .obj fields =>
    match optStrField fields ("csrf"), optStrField fields ("transId") with
    | .ok c, .ok t => .ok ⟨c, t⟩
    | .error e, _ => .error e
    | _, .error e => .error e
  | _ => .error (.daciteError ("data is not a mapping"))

/-- Modelled from the spec: SelfAssertedResult is a record with a string
    status field. -/
structure SelfAssertedResponse where
  status : String
  deriving DecidableEq, Repr

/-- Modelled from the spec: dacite.from_dict(SelfAssertedResponse, data). -/
def fromDictSelfAsserted : Json → Except PyErr SelfAssertedResponse
  | .obj fields =>
    match jsonField fields ("status") with
    | some (.str s) => .ok ⟨s⟩
    | _ => .error (.daciteError ("SelfAssertedResponse"))
  | _ => .error (.daciteError ("data is not a mapping"))

/-- Modelled from the spec: the Apparatus fields this client reads
    (spec section 3): an apparatusId, an integer type code, and a name. -/
structure Apparatus where
  apparatusId : Int
  type : Int
  name : String

/-- Modelled from the spec: every ApparatusDetail field is optional, so
    dacite accepts any JSON object; the parsed record is carried as its
    decoded field list. -/
structure ApparatusDetail where
  fields : List (String × Json)

/-- Item (models.py, spec section 3): the pair of an Apparatus and its
    ApparatusDetail stored in the result mapping. -/
structure Item where
  apparatus : Apparatus
  apparatusDetail : ApparatusDetail

/-- Modelled from the spec: dacite.from_dict(Apparatus, data) — raises on
    a non-mapping or on missing/mistyped required fields. -/
def fromDictApparatus : Json → Except PyErr Apparatus
  | .obj fields =>
    match jsonField fields ("apparatusId"), jsonField fields ("type"),
          jsonField fields ("name") with
    | some (.num i), some (.num t), some (.str n) => .ok ⟨i, t, n⟩
    | _, _, _ => .error (.daciteError ("Apparatus"))
  | _ => .error (.daciteError ("data is not a mapping"))

/-- Modelled from the spec: dacite.from_dict(ApparatusDetail, data). -/
def fromDictApparatusDetail : Json → Except PyErr ApparatusDetail
  | .obj fields => .ok ⟨fields⟩
  | _ => .error (.daciteError ("data is not a mapping"))

/-- Python for-loop iteration over a JSON value: a list yields its
    elements, a dict its keys, a string its one-character substrings;
    anything else raises TypeError. -/
def iterElems : Json → Except PyErr (List Json)
  | .arr xs => .ok xs
  | .obj fields => .ok (fields.map (fun p => Json.str p.1))
  | .str s => .ok (s.data.map (fun c => Json.str (String.mk [c])))
  | _ => .error (.typeError ("object is not iterable"))

def Json.isList : Json → Bool
  | .arr _ => true
  | _ => false

/-- Python str() of the integer apparatus id used as the mapping key. -/
def pyStr (i : Int) : String := toString i

abbrev ItemMap := List (String × Item)

/-- Python dict assignment d[k] = v: overwrite an existing key in place,
    otherwise append at the end (dicts preserve insertion order). -/
def dictInsert (m : ItemMap) (k : String) (v : Item) : ItemMap :=
  if m.any (fun p => p.1 == k) then
    m.map (fun p => if p.1 == k then (k, v) else p)
  else m ++ [(k, v)]

def mkeys (m : ItemMap) : List String := m.map (fun p => p.1)

/-- Parse a detail payload and build the mapping entry for it
    (api.py 127-128). -/
def entryOf (a : Apparatus) (dj : Json) : Except PyErr (Option (String × Item)) :=
  match fromDictApparatusDetail dj with
  | .error e => .error e
  | .ok d => .ok (some (pyStr a.apparatusId, ⟨a, d⟩))

/-- One iteration of the apparatus loop in get_generator_data
    (api.py 106-128): parse the element as an Apparatus, skip non-zero
    type codes without any request, else fetch the v5 detail endpoint
    falling back to v1 on no-data; both no-data skips the apparatus with
    a debug log. -/
def processApparatus (net : String → NetResponse) (j : Json) :
    TraceOut (Except PyErr (Option (String × Item))) :=
  match fromDictApparatus j with
  | .error e => ⟨.error e, [], []⟩
  | .ok a =>
    if a.type ≠ 0 then
      ⟨.ok none, [(.debug, ("Unknown apparatus type"))], []⟩
    else
      match get_endpoint net (("/v5/Apparatus/") ++ pyStr a.apparatusId) with
      | .error e => ⟨.error e, [], [.detail5 a.apparatusId]⟩
      | .ok (some dj) => ⟨entryOf a dj, [], [.detail5 a.apparatusId]⟩
      | .ok none =>
        match get_endpoint net (("/v1/Apparatus/details/") ++ pyStr a.apparatusId) with
        | .error e => ⟨.error e, [], [.detail5 a.apparatusId, .detail1 a.apparatusId]⟩
        | .ok none =>
          ⟨.ok none,
           [(.debug, ("Could not decode respose from /v1/Apparatus/details/") ++ pyStr a.apparatusId)],
           [.detail5 a.apparatusId, .detail1 a.apparatusId]⟩
        | .ok (some dj) => ⟨entryOf a dj, [], [.detail5 a.apparatusId, .detail1 a.apparatusId]⟩

/-- The apparatus for-loop of get_generator_data, threading the result
    dict; a raised exception aborts the whole loop. -/
def processLoop (net : String → NetResponse) :
    List Json → ItemMap → TraceOut (Except PyErr ItemMap)
  | [], m => ⟨.ok m, [], []⟩
  | j :: js, m =>
    let s := processApparatus net j
    match s.result with
    | .error e => ⟨.error e, s.logs, s.reqs⟩
    | .ok none =>
      let r := processLoop net js m
      ⟨r.result, s.logs ++ r.logs, s.reqs ++ r.reqs⟩
    | .ok (some (k, it)) =>
      let r := processLoop net js (dictInsert m k it)
      ⟨r.result, s.logs ++ r.logs, s.reqs ++ r.reqs⟩

/-- get_generator_data after the device list has been obtained
    (api.py 102-129): a non-list body only logs an error, then the value
    is iterated as the apparatus collection. -/
def afterList (net : String → NetResponse) (apparatuses : Json) :
    TraceOut (Except PyErr (Option ItemMap)) :=
  let lg0 : List (LogLevel × String) :=
    if apparatuses.isList then []
    else [(.error, ("Expected list from /v2/Apparatus/list got %s"))]
  match iterElems apparatuses with
  | .error e => ⟨.error e, lg0, []⟩
  | .ok xs =>
    let r := processLoop net xs []
    ⟨r.result.map some, lg0 ++ r.logs, r.reqs⟩

/-- GeneracApiClient.get_generator_data (api.py 93-129): fetch the v5
    device list, fall back to v2 exactly when v5 yields the no-data
    outcome, return no data when both do, and otherwise walk the
    apparatus collection. -/
def get_generator_data (net : String → NetResponse) :
    TraceOut (Except PyErr (Option ItemMap)) :=
  match get_endpoint net ("/v5/Apparatus/list") with
  | .error e => ⟨.error e, [], [.list5]⟩
  | .ok (some j) => prependReq [.list5] (afterList net j)
  | .ok none =>
    match get_endpoint net ("/v2/Apparatus/list") with
    | .error e => ⟨.error e, [], [.list5, .list2]⟩
    | .ok none =>
      ⟨.ok none, [(.debug, ("Could not decode apparatuses response"))], [.list5, .list2]⟩
    | .ok (some j) => prependReq [.list5, .list2] (afterList net j)

/-- Environment of oracles a full client run consumes: the data-API
    network, the sign-in page text, json.loads, the BeautifulSoup
    extraction of (form action, state value, code value) from an HTML
    page (none when form/state/code are not all present), and the
    statuses/bodies of the login POSTs and GETs. -/
structure HttpEnv where
  net : String → NetResponse
  signInPage : String
  jsonLoads : String → Except String Json
  soup : String → Option (String × String × String)
  formPostStatus : String → Nat
  selfAssertedStatus : Nat
  selfAssertedText : String
  confirmedStatus : Nat
  confirmedText : String

/-- GeneracApiClient.submit_form (api.py 249-273): when the page does not
    contain a form plus state and code inputs, log and answer False;
    otherwise POST the hidden fields to the form action, raising IOError
    on a non-200 status and answering True on 200. -/
def submit_form (env : HttpEnv) (response : String) :
    TraceOut (Except PyErr Bool) :=
  match env.soup response with
  | none => ⟨.ok false, [(.info, ("Could not load login page"))], []⟩
  | some (action, _, _) =>
    if env.formPostStatus action ≠ 200 then
      ⟨.error (.ioError (("Bad api login response: ") ++ toString (env.formPostStatus action))),
       [], [.formPost action]⟩
    else ⟨.ok true, [], [.formPost action]⟩

/-- The tail of the credential login flow once csrf and transId are in
    hand (api.py 204-247): store the csrf token, POST SelfAsserted,
    parse its JSON body, treat a status other than "200" as invalid
    credentials, then GET the confirmed page and submit its final form.
    (The logs/requests emitted before this point are prepended by the
    caller.) -/
def afterConfig (env : HttpEnv) (st : ClientState) (c t : String) :
    TraceOut ((Except PyErr Unit) × ClientState) :=
  let st2 : ClientState := { st with csrf := c }
  let _ := t
  if env.selfAssertedStatus ≠ 200 then
    ⟨(.error (.ioError (("SelfAsserted: Bad response status: ") ++ toString env.selfAssertedStatus)), st2),
     [], [.selfAsserted]⟩
  else
    match env.jsonLoads env.selfAssertedText with
    | .error m => ⟨(.error (.valueError m), st2), [], [.selfAsserted]⟩
    | .ok saj =>
      match fromDictSelfAsserted saj with
      | .error e => ⟨(.error e, st2), [], [.selfAsserted]⟩
      | .ok sa =>
        if sa.status ≠ ("200") then
          ⟨(.error (.invalidCredentials ("")), st2), [], [.selfAsserted]⟩
        else
          if env.confirmedStatus ≠ 200 then
            ⟨(.error (.ioError (("CombinedSigninAndSignup: Bad response status: ") ++ toString env.confirmedStatus)), st2),
             [], [.selfAsserted, .confirmed]⟩
          else
            let sf := submit_form env env.confirmedText
            match sf.result with
            | .error e => ⟨(.error e, st2), sf.logs, [.selfAsserted, .confirmed] ++ sf.reqs⟩
            | .ok false =>
              ⟨(.error (.ioError ("Error parsing HTML submit form")), st2),
               sf.logs, [.selfAsserted, .confirmed] ++ sf.reqs⟩
            | .ok true => ⟨(.ok (), st2), sf.logs, [.selfAsserted, .confirmed] ++ sf.reqs⟩

/-- The username/password part of GeneracApiClient.login
    (api.py 172-247): missing or empty username/password raises
    InvalidCredentialsException; otherwise GET the sign-in page, try the
    early-exit form submit, else extract the SETTINGS blob — its absence,
    or a missing csrf/transId inside it, raises IOError — and run the
    rest of the flow. -/
def credential_login (env : HttpEnv) (st : ClientState) :
    TraceOut ((Except PyErr Unit) × ClientState) :=
  if !(truthy st.username) || !(truthy st.password) then
    ⟨(.error (.invalidCredentials ("Username and password required for login")), st), [], []⟩
  else
    let page := env.signInPage
    let rq0 : List Req := [.signIn]
    let sf := submit_form env page
    match sf.result with
    | .error e => ⟨(.error e, st), sf.logs, rq0 ++ sf.reqs⟩
    | .ok true => ⟨(.ok (), st), sf.logs, rq0 ++ sf.reqs⟩
    | .ok false =>
      match get_setting_json env.jsonLoads page with
      | .error e => ⟨(.error e, st), sf.logs, rq0 ++ sf.reqs⟩
      | .ok none =>
        ⟨(.error (.ioError ("Unable to find csrf token in login page")), st),
         sf.logs ++ [(.debug, ("Unable to find csrf token in login page"))], rq0 ++ sf.reqs⟩
      | .ok (some m) =>
        match fromDictSignInConfig m with
        | .error e => ⟨(.error e, st), sf.logs, rq0 ++ sf.reqs⟩
        | .ok cfg =>
          match cfg.csrf, cfg.transId with
          | some c, some t =>
            let r := afterConfig env st c t
            ⟨r.result, sf.logs ++ r.logs, (rq0 ++ sf.reqs) ++ r.reqs⟩
          | _, _ =>
            ⟨(.error (.ioError ("Missing csrf and/or transId in sign in config %s")), st),
             sf.logs, rq0 ++ sf.reqs⟩

/-- GeneracApiClient.login (api.py 157-247): token mode returns at once;
    cookie mode issues one device-list probe and accepts the cookies when
    it yields data, falls through to the credential flow on the no-data
    outcome or on the session-expired signal, and propagates any other
    exception; username/password mode always runs the credential flow. -/
def login (env : HttpEnv) (st : ClientState) :
    TraceOut ((Except PyErr Unit) × ClientState) :=
  match st.auth_method with
  | .token => ⟨(.ok (), st), [], []⟩
  | .cookies =>
    match get_endpoint env.net ("/v5/Apparatus/list") with
    | .ok (some _) => ⟨(.ok (), st), [], [.list5]⟩
    | .ok none => prependReq [.list5] (credential_login env st)
    | .error (.sessionExpired _) => prependReq [.list5] (credential_login env st)
    | .error e => ⟨(.error e, st), [], [.list5]⟩
  | .username_password => credential_login env st

/-- Result of a fuel-bounded run of a self-recursive coroutine: either
    the value it returned, or the fuel bound was hit (the recursion did
    not terminate within the bound). -/
inductive RunResult (α : Type) where
  | out (r : α)
  | outOfFuel

/-- GeneracApiClient.async_get_data (api.py 82-91), with the recursion
    made explicit through fuel and the environment indexed by the attempt
    so responses may differ between passes.  The try block covers only
    the login call: a SessionExpiredException from login resets
    logged_in and recurses with no bound; get_generator_data runs outside
    the try, so its exceptions — session expiry included — propagate to
    the caller. -/
def async_get_data (fuel : Nat) (envs : Nat → HttpEnv) (attempt : Nat)
    (st : ClientState) :
    RunResult (TraceOut ((Except PyErr (Option ItemMap)) × ClientState)) :=
  match fuel with
  | 0 => .outOfFuel
  | fuel + 1 =>
    let env := envs attempt
    if st.logged_in then
      let g := get_generator_data env.net
      .out ⟨(g.result, st), g.logs, g.reqs⟩
    else
      let l := login env st
      match l.result with
      | (.error (.sessionExpired _), st2) =>
        match async_get_data fuel envs (attempt + 1) { st2 with logged_in := false } with
        | .outOfFuel => .outOfFuel
        | .out u => .out ⟨u.result, l.logs ++ u.logs, l.reqs ++ u.reqs⟩
      | (.error e, st2) => .out ⟨(.error e, st2), l.logs, l.reqs⟩
      | (.ok _, st2) =>
        let st3 : ClientState := { st2 with logged_in := true }
        let g := get_generator_data env.net
        .out ⟨(g.result, st3), l.logs ++ g.logs, l.reqs ++ g.reqs⟩

/-- The loop of parseDatetime over its format list: the first format
    strptime accepts wins; when every format raises, a ValueError naming
    the raw string is raised. -/
def tryFormats {α : Type} (strptime : String → String → Option α)
    (rawStr : String) : List String → Except PyErr α
  | [] => .error (.valueError (("No known datetime format for raw string ") ++ rawStr))
  | f :: fs =>
    match strptime rawStr f with
    | some d => .ok d
    | none => tryFormats strptime rawStr fs

/-- parseDatetime (sensor.py 67-75) over a strptime oracle (none models a
    ValueError from datetime.strptime for that format). -/
def parseDatetime {α : Type} (strptime : String → String → Option α)
    (rawStr : String) : Except PyErr α :=
  tryFormats strptime rawStr [("%Y-%m-%dT%H:%M:%S.%f%z"), ("%Y-%m-%dT%H:%M:%S%z")]

/-- The v5-then-v1 detail lookup for one apparatus (api.py 113-121),
    used to state the membership claims. -/
def detailOf (net : String → NetResponse) (a : Apparatus) :
    Except PyErr (Option Json) :=
  match get_endpoint net (("/v5/Apparatus/") ++ pyStr a.apparatusId) with
  | .ok none => get_endpoint net (("/v1/Apparatus/details/") ++ pyStr a.apparatusId)
  | r => r

/-- True exactly on the explicit no-data outcome of a fetch. -/
def isNoData : Except PyErr (Option ItemMap) → Bool
  | .ok none => true
  | _ => false

/-- The Python class name of the exception of a failed computation, or
    "ok" for a successful one. -/
def errClassName {α : Type} : Except PyErr α → String
  | .ok _ => ("ok")
  | .error e => e.className

/-- C2: get_endpoint classifies strictly: a 204 response yields the
    no-data result without raising; every other non-200 status raises
    SessionExpiredException; a 200 response yields the decoded body; and
    an exception during the network call or the JSON decode is wrapped
    into IOError, a class distinct from the expiry signal and never
    classified as expiry. -/
theorem c2_get_endpoint_classification (net : String → NetResponse) (endpoint : String) :
    (net endpoint = .netError → get_endpoint net endpoint = .error (.ioError (""))) ∧
    (∀ b, net endpoint = .resp 204 b → get_endpoint net endpoint = .ok none) ∧
    (∀ s b, net endpoint = .resp s b → s ≠ 204 → s ≠ 200 →
      get_endpoint net endpoint =
        .error (.sessionExpired (("API returned status code: ") ++ toString s ++ (" ")))) ∧
    (net endpoint = .resp 200 none → get_endpoint net endpoint = .error (.ioError (""))) ∧
    (∀ j, net endpoint = .resp 200 (some j) → get_endpoint net endpoint = .ok (some j)) ∧
    (∀ m, isExpiredExc (Except.error (PyErr.ioError m) : Except PyErr (Option Json)) = false) ∧
    (∀ m m2, PyErr.className (.ioError m) ≠ PyErr.className (.sessionExpired m2)) := by
  refine ⟨fun h => by simp [get_endpoint, h],
          fun b h => by simp [get_endpoint, h],
          fun s b h hs4 hs2 => by simp [get_endpoint, h, hs4, hs2],
          fun h => by simp [get_endpoint, h],
          fun j h => by simp [get_endpoint, h],
          fun m => rfl,
          fun m m2 => by simp [PyErr.className]⟩

/-- C8: construction yields, per credential variant, exactly the
    specified auth headers (token: Authorization Bearer, cookies: Cookie,
    username/password: neither), and the logged-in flag starts true only
    in token mode. -/
theorem c8_client_init :
    (∀ u p c t, truthy t = true → mkClient u p c t =
      { username := u, password := p, cookies := c,
        auth_token := t, auth_method := .token,
        headers := [
          (("Host"), ("app.mobilelinkgen.com")),
          (("Accept"), ("application/json")),
          (("Authorization"), ("Bearer ") ++ (t.getD (""))),
          (("User-Agent"), ("mobilelink/75633 CFNetwork/3826.600.41 Darwin/24.6.0")),
          (("Accept-Language"), ("en-US,en;q=0.9"))],
        logged_in := true, csrf := ("") }) ∧
    (∀ u p c t, truthy t = false → truthy c = true → mkClient u p c t =
      { username := u, password := p, cookies := c,
        auth_token := t, auth_method := .cookies,
        headers := [
          (("User-Agent"), ("Mozilla/5.0 (Windows NT 10.0; Win64; x64) AppleWebKit/537.36 (KHTML, like Gecko) Chrome/122.0.0.0 Safari/537.36")),
          (("Accept"), ("application/json, text/plain, */*")),
          (("Accept-Language"), ("en-US,en;q=0.9")),
          (("Accept-Encoding"), ("gzip, deflate, br")),
          (("Connection"), ("keep-alive")),
          (("Cookie"), (c.getD ("")))],
        logged_in := false, csrf := ("") }) ∧
    (∀ u p c t, truthy t = false → truthy c = false → mkClient u p c t =
      { username := u, password := p, cookies := c,
        auth_token := t, auth_method := .username_password,
        headers := [
          (("User-Agent"), ("Mozilla/5.0 (Windows NT 10.0; Win64; x64) AppleWebKit/537.36 (KHTML, like Gecko) Chrome/122.0.0.0 Safari/537.36")),
          (("Accept"), ("application/json, text/plain, */*")),
          (("Accept-Language"), ("en-US,en;q=0.9")),
          (("Accept-Encoding"), ("gzip, deflate, br")),
          (("Connection"), ("keep-alive"))],
        logged_in := false, csrf := ("") }) ∧
    (∀ u p c t, truthy t = false → truthy c = false →
      (mkClient u p c t).headers.any
        (fun q => q.1 == ("Authorization") || q.1 == ("Cookie")) = false) ∧
    (∀ u p c t, truthy t = true →
      ((mkClient u p c t).headers.any (fun q => q.1 == ("Authorization")) = true ∧
       (mkClient u p c t).headers.any (fun q => q.1 == ("Cookie")) = false)) ∧
    (∀ u p c t, truthy t = false → truthy c = true →
      ((mkClient u p c t).headers.any (fun q => q.1 == ("Cookie")) = true ∧
       (mkClient u p c t).headers.any (fun q => q.1 == ("Authorization")) = false)) := by
  refine ⟨fun u p c t h => by simp [mkClient, h],
          fun u p c t h h2 => by simp [mkClient, h, h2],
          fun u p c t h h2 => by simp [mkClient, h, h2],
          fun u p c t h h2 => by simp [mkClient, h, h2],
          fun u p c t h => by simp [mkClient, h],
          fun u p c t h h2 => by simp [mkClient, h, h2]⟩

/-- C7 counterexample: on an unparseable input the raised ValueError's
    message is "No known datetime format for raw string x" — it names the
    raw string, and neither of the two attempted patterns occurs in it,
    so the claim that the format error names both attempted patterns is
    false. -/
theorem c7_error_message_lacks_patterns :
    parseDatetime (fun _ _ => (none : Option Unit)) ("x")
      = .error (.valueError ("No known datetime format for raw string x")) ∧
    ¬ (("%Y-%m-%dT%H:%M:%S.%f%z").data <:+: ("No known datetime format for raw string x").data) ∧
    ¬ (("%Y-%m-%dT%H:%M:%S%z").data <:+: ("No known datetime format for raw string x").data) := by
  exact ⟨rfl, by decide, by decide⟩

/-- C7 amended: parseDatetime accepts every string strptime parses under
    the first format, then every string it parses under the second, and
    on a string matching neither it raises a ValueError whose message
    names the offending raw string (not the attempted patterns). -/
theorem c7_parseDatetime_formats {α : Type}
    (strptime : String → String → Option α) (rawStr : String) :
    (∀ d, strptime rawStr ("%Y-%m-%dT%H:%M:%S.%f%z") = some d →
        parseDatetime strptime rawStr = .ok d) ∧
    (∀ d, strptime rawStr ("%Y-%m-%dT%H:%M:%S.%f%z") = none →
          strptime rawStr ("%Y-%m-%dT%H:%M:%S%z") = some d →
        parseDatetime strptime rawStr = .ok d) ∧
    (strptime rawStr ("%Y-%m-%dT%H:%M:%S.%f%z") = none →
     strptime rawStr ("%Y-%m-%dT%H:%M:%S%z") = none →
        parseDatetime strptime rawStr =
          .error (.valueError (("No known datetime format for raw string ") ++ rawStr))) := by
  refine ⟨fun d h => by simp [parseDatetime, tryFormats, h],
          fun d h h2 => by simp [parseDatetime, tryFormats, h, h2],
          fun h h2 => by simp [parseDatetime, tryFormats, h, h2]⟩

lemma signIn_mem_credential_login (env : HttpEnv) (st : ClientState)
    (h1 : truthy st.username = true) (h2 : truthy st.password = true) :
    Req.signIn ∈ (credential_login env st).reqs := by
  unfold credential_login
  rw [if_neg (by simp [h1, h2] :
        ¬((!(truthy st.username) || !(truthy st.password)) = true))]
  dsimp only
  cases hr : (submit_form env env.signInPage).result with
  | error e => simp [hr]
  | ok b =>
    cases b with
    | true => simp [hr]
    | false =>
      cases hg : get_setting_json env.jsonLoads env.signInPage with
      | error e => simp [hr, hg]
      | ok og =>
        cases og with
        | none => simp [hr, hg]
        | some m =>
          cases hf : fromDictSignInConfig m with
          | error e => simp [hr, hg, hf]
          | ok cfg =>
            cases hcc : cfg.csrf with
            | none => simp [hr, hg, hf, hcc]
            | some cv =>
              cases htt : cfg.transId with
              | none => simp [hr, hg, hf, hcc, htt]
              | some tv => simp [hr, hg, hf, hcc, htt]

/-- C9: in cookie mode a probe answering the no-data outcome (HTTP 204)
    does not validate the cookies — login falls through to the
    credential flow, and with no username/password configured it raises
    InvalidCredentialsException. -/
theorem c9_cookie_probe_no_data_falls_through (env : HttpEnv) (st : ClientState)
    (h1 : st.auth_method = .cookies)
    (h2 : get_endpoint env.net ("/v5/Apparatus/list") = .ok none) :
    login env st = prependReq [.list5] (credential_login env st) ∧
    ((truthy st.username = false ∨ truthy st.password = false) →
      login env st =
        ⟨(.error (.invalidCredentials ("Username and password required for login")), st),
         [], [.list5]⟩) := by
  have hma : login env st = prependReq [.list5] (credential_login env st) := by
    unfold login
    simp only [h1, h2]
  refine ⟨hma, fun hc => ?_⟩
  rw [hma]
  have hcond : (!(truthy st.username) || !(truthy st.password)) = true := by
    rcases hc with h | h <;> simp [h]
  have hcred : credential_login env st =
      ⟨(.error (.invalidCredentials ("Username and password required for login")), st), [], []⟩ := by
    unfold credential_login
    rw [if_pos hcond]
  rw [hcred]
  rfl

def envProbe204 : HttpEnv :=
  { net := fun _ => .resp 204 none, signInPage := (""),
    jsonLoads := fun _ => .error (""), soup := fun _ => none,
    formPostStatus := fun _ => 0, selfAssertedStatus := 0,
    selfAssertedText := (""), confirmedStatus := 0, confirmedText := ("") }

def stCookieOnly : ClientState := mkClient none none (some ("session=abc")) none

theorem c9_witness :
    login envProbe204 stCookieOnly =
      ⟨(.error (.invalidCredentials ("Username and password required for login")), stCookieOnly),
       [], [.list5]⟩ :=
  (c9_cookie_probe_no_data_falls_through envProbe204 stCookieOnly rfl rfl).2 (Or.inl rfl)

/-- C5: in cookie mode login issues exactly one device-list probe; a
    probe that returns data ends login with no further requests and no
    state change; a probe that signals session expiry falls through to
    the credential flow, which raises InvalidCredentialsException when
    username or password is missing and otherwise really enters the
    login engine (the sign-in request is issued). -/
theorem c5_cookie_login_policy (env : HttpEnv) (st : ClientState)
    (h1 : st.auth_method = .cookies) :
    (∀ j, get_endpoint env.net ("/v5/Apparatus/list") = .ok (some j) →
        login env st = ⟨(.ok (), st), [], [.list5]⟩) ∧
    (∀ m, get_endpoint env.net ("/v5/Apparatus/list") = .error (.sessionExpired m) →
        login env st = prependReq [.list5] (credential_login env st)) ∧
    ((truthy st.username = false ∨ truthy st.password = false) →
        credential_login env st =
          ⟨(.error (.invalidCredentials ("Username and password required for login")), st),
           [], []⟩) ∧
    (truthy st.username = true → truthy st.password = true →
        Req.signIn ∈ (credential_login env st).reqs) := by
  refine ⟨fun j hj => ?_, fun m hm => ?_, fun hc => ?_,
          fun hu hp => signIn_mem_credential_login env st hu hp⟩
  · unfold login
    simp only [h1, hj]
  · unfold login
    simp only [h1, hm]
  · have hcond : (!(truthy st.username) || !(truthy st.password)) = true := by
      rcases hc with h | h <;> simp [h]
    unfold credential_login
    rw [if_pos hcond]

def envProbe401 : HttpEnv :=
  { net := fun _ => .resp 401 none, signInPage := (""),
    jsonLoads := fun _ => .error (""), soup := fun _ => none,
    formPostStatus := fun _ => 0, selfAssertedStatus := 0,
    selfAssertedText := (""), confirmedStatus := 0, confirmedText := ("") }

def stCookieCreds : ClientState := mkClient (some ("u")) (some ("p")) (some ("cc")) none

theorem c5_witness :
    login envProbe401 stCookieCreds =
      prependReq [.list5] (credential_login envProbe401 stCookieCreds) ∧
    Req.signIn ∈ (credential_login envProbe401 stCookieCreds).reqs :=
  ⟨(c5_cookie_login_policy envProbe401 stCookieCreds rfl).2.1
      ("API returned status code: 401 ") rfl,
   (c5_cookie_login_policy envProbe401 stCookieCreds rfl).2.2.2 rfl rfl⟩

/-- C6 amended: during credential login, a sign-in page without the
    SETTINGS assignment, or a SignInConfig missing csrf or transId,
    raises IOError — the code has no dedicated ConfigParseError class —
    and never InvalidCredentialsException. -/
theorem c6_parse_failures_raise_ioerror (env : HttpEnv) (st : ClientState)
    (h0 : st.auth_method = .username_password)
    (h1 : truthy st.username = true) (h2 : truthy st.password = true)
    (h3 : (submit_form env env.signInPage).result = .ok false) :
    (get_setting_json env.jsonLoads env.signInPage = .ok none →
      (login env st).result =
        (.error (.ioError ("Unable to find csrf token in login page")), st)) ∧
    (∀ m cfg, get_setting_json env.jsonLoads env.signInPage = .ok (some m) →
      fromDictSignInConfig m = .ok cfg →
      (cfg.csrf = none ∨ cfg.transId = none) →
      (login env st).result =
        (.error (.ioError ("Missing csrf and/or transId in sign in config %s")), st)) := by
  have hl : login env st = credential_login env st := by
    unfold login
    simp only [h0]
  have hcond : ¬((!(truthy st.username) || !(truthy st.password)) = true) := by
    simp [h1, h2]
  refine ⟨fun hset => ?_, fun m cfg hset hf hmiss => ?_⟩
  · rw [hl]
    unfold credential_login
    rw [if_neg hcond]
    dsimp only
    simp only [h3, hset]
  · rw [hl]
    unfold credential_login
    rw [if_neg hcond]
    dsimp only
    simp only [h3, hset, hf]
    rcases hmiss with hm | hm
    · simp only [hm]
    · cases hcc : cfg.csrf with
      | none => simp only [hcc, hm]
      | some cv => simp only [hcc, hm]

def envNoSettings : HttpEnv :=
  { net := fun _ => .netError, signInPage := (""),
    jsonLoads := fun _ => .error (""), soup := fun _ => none,
    formPostStatus := fun _ => 0, selfAssertedStatus := 0,
    selfAssertedText := (""), confirmedStatus := 0, confirmedText := ("") }

def stUserPass : ClientState := mkClient (some ("u")) (some ("p")) none none

theorem c6_witness :
    (login envNoSettings stUserPass).result =
      (.error (.ioError ("Unable to find csrf token in login page")), stUserPass) :=
  (c6_parse_failures_raise_ioerror envNoSettings stUserPass rfl rfl rfl rfl).1 rfl

/-- C6 counterexample: at a concrete sign-in page with no SETTINGS
    assignment the exception raised is IOError, whose Python class
    (OSError) is exactly the class transport failures are wrapped into —
    there is no distinct ConfigParseError raised, refuting the claim as
    stated (while it is indeed not InvalidCredentialsException). -/
theorem c6_counterexample :
    (login envNoSettings stUserPass).result.1 =
      .error (.ioError ("Unable to find csrf token in login page")) ∧
    errClassName (login envNoSettings stUserPass).result.1 = ("OSError") ∧
    errClassName (get_endpoint (fun _ => .netError) ("/v5/Apparatus/list")) = ("OSError") ∧
    errClassName (login envNoSettings stUserPass).result.1 ≠ ("InvalidCredentialsException") := by
  refine ⟨rfl, rfl, rfl, by decide⟩

/-- C10: a 200 device-list response whose JSON body is not a list is
    neither an error nor the no-data outcome at that point: an
    error-level line is logged and the value itself is iterated as the
    apparatus collection. -/
theorem c10_nonlist_body (net : String → NetResponse) (j : Json)
    (h1 : net ("/v5/Apparatus/list") = .resp 200 (some j))
    (h2 : j.isList = false) :
    get_generator_data net = prependReq [.list5] (afterList net j) ∧
    (LogLevel.error, ("Expected list from /v2/Apparatus/list got %s")) ∈
      (get_generator_data net).logs ∧
    isNoData (get_generator_data net).result = false ∧
    (∀ xs, iterElems j = .ok xs →
      (get_generator_data net).result = (processLoop net xs []).result.map some) := by
  have hep : get_endpoint net ("/v5/Apparatus/list") = .ok (some j) := by
    simp [get_endpoint, h1]
  have hg : get_generator_data net = prependReq [.list5] (afterList net j) := by
    unfold get_generator_data
    simp only [hep]
  refine ⟨hg, ?_, ?_, fun xs hxs => ?_⟩
  · rw [hg]
    unfold afterList
    dsimp only
    cases hit : iterElems j with
    | error e => simp [prependReq, hit, h2]
    | ok xs => simp [prependReq, hit, h2]
  · rw [hg]
    unfold afterList
    dsimp only
    cases hit : iterElems j with
    | error e => simp [prependReq, isNoData, hit, h2]
    | ok xs =>
      cases hpl : (processLoop net xs []).result with
      | error e => simp [prependReq, isNoData, hit, hpl, h2, Except.map]
      | ok m => simp [prependReq, isNoData, hit, hpl, h2, Except.map]
  · rw [hg]
    unfold afterList
    dsimp only
    simp only [hxs]
    simp [prependReq]

def netObjBody : String → NetResponse :=
  fun p => if p == ("/v5/Apparatus/list") then .resp 200 (some (Json.obj [])) else .netError

theorem c10_witness :
    isNoData (get_generator_data netObjBody).result = false ∧
    (LogLevel.error, ("Expected list from /v2/Apparatus/list got %s")) ∈
      (get_generator_data netObjBody).logs :=
  ⟨(c10_nonlist_body netObjBody (Json.obj []) rfl rfl).2.2.1,
   (c10_nonlist_body netObjBody (Json.obj []) rfl rfl).2.1⟩

lemma list2_not_mem_processApparatus (net : String → NetResponse) (j : Json) :
    Req.list2 ∉ (processApparatus net j).reqs := by
  unfold processApparatus
  cases hfa : fromDictApparatus j with
  | error e => simp [hfa]
  | ok a =>
    by_cases ht : a.type ≠ 0
    · simp [hfa, if_pos ht]
    · cases he5 : get_endpoint net (("/v5/Apparatus/") ++ pyStr a.apparatusId) with
      | error e => simp [hfa, if_neg ht, he5]
      | ok o5 =>
        cases o5 with
        | some dj => simp [hfa, if_neg ht, he5]
        | none =>
          cases he1 : get_endpoint net (("/v1/Apparatus/details/") ++ pyStr a.apparatusId) with
          | error e => simp [hfa, if_neg ht, he5, he1]
          | ok o1 =>
            cases o1 with
            | some dj => simp [hfa, if_neg ht, he5, he1]
            | none => simp [hfa, if_neg ht, he5, he1]

lemma list2_not_mem_processLoop (net : String → NetResponse) (xs : List Json) :
    ∀ m : ItemMap, Req.list2 ∉ (processLoop net xs m).reqs := by
  induction xs with
  | nil => intro m; simp [processLoop]
  | cons j js ih =>
    intro m
    unfold processLoop
    dsimp only
    cases hs : (processApparatus net j).result with
    | error e =>
      simp only [hs]
      have := list2_not_mem_processApparatus net j
      simpa using this
    | ok o =>
      cases o with
      | none =>
        simp only [hs]
        have h1 := list2_not_mem_processApparatus net j
        have h2 := ih m
        simp [List.mem_append, h1, h2]
      | some kv =>
        obtain ⟨k, it⟩ := kv
        simp only [hs]
        have h1 := list2_not_mem_processApparatus net j
        have h2 := ih (dictInsert m k it)
        simp [List.mem_append, h1, h2]

lemma list2_not_mem_afterList (net : String → NetResponse) (j : Json) :
    Req.list2 ∉ (afterList net j).reqs := by
  unfold afterList
  dsimp only
  cases hit : iterElems j with
  | error e => simp [hit]
  | ok xs =>
    simp only [hit]
    exact list2_not_mem_processLoop net xs []

/-- C3: device enumeration always starts with the newer list endpoint;
    the older one is requested exactly when the newer returned the
    no-data outcome; an error from the newer endpoint propagates with no
    fallback request; and when both return no data the whole operation
    returns no data without raising. -/
theorem c3_device_list_fallback (net : String → NetResponse) :
    ((get_generator_data net).reqs.head? = some Req.list5) ∧
    (Req.list2 ∈ (get_generator_data net).reqs ↔
       get_endpoint net ("/v5/Apparatus/list") = .ok none) ∧
    (∀ e, get_endpoint net ("/v5/Apparatus/list") = .error e →
       get_generator_data net = ⟨.error e, [], [.list5]⟩) ∧
    (get_endpoint net ("/v5/Apparatus/list") = .ok none →
     get_endpoint net ("/v2/Apparatus/list") = .ok none →
       get_generator_data net =
         ⟨.ok none, [(.debug, ("Could not decode apparatuses response"))], [.list5, .list2]⟩) := by
  refine ⟨?_, ?_, fun e he => ?_, fun h5 h2 => ?_⟩
  · unfold get_generator_data
    cases he5 : get_endpoint net ("/v5/Apparatus/list") with
    | error e => simp [he5]
    | ok o =>
      cases o with
      | some j => simp [he5, prependReq]
      | none =>
        cases he2 : get_endpoint net ("/v2/Apparatus/list") with
        | error e => simp [he5, he2]
        | ok o2 =>
          cases o2 with
          | some j => simp [he5, he2, prependReq]
          | none => simp [he5, he2]
  · unfold get_generator_data
    cases he5 : get_endpoint net ("/v5/Apparatus/list") with
    | error e => simp [he5]
    | ok o =>
      cases o with
      | some j =>
        have hnm := list2_not_mem_afterList net j
        simp [he5, prependReq, hnm]
      | none =>
        cases he2 : get_endpoint net ("/v2/Apparatus/list") with
        | error e => simp [he5, he2]
        | ok o2 =>
          cases o2 with
          | some j => simp [he5, he2, prependReq]
          | none => simp [he5, he2]
  · unfold get_generator_data
    simp only [he]
  · unfold get_generator_data
    simp only [h5, h2]

lemma optStrField_error_not_expired (fields : List (String × Json)) (k : String)
    (e : PyErr) (h : optStrField fields k = .error e) : e.isExpired = false := by
  unfold optStrField at h
  split at h <;>
    first
      | (subst h; rfl)
      | (injection h with h2; subst h2; rfl)
      | simp_all [PyErr.isExpired]

lemma fromDictSignInConfig_error_not_expired (j : Json) (e : PyErr)
    (h : fromDictSignInConfig j = .error e) : e.isExpired = false := by
  unfold fromDictSignInConfig at h
  split at h
  next fields =>
    cases hc : optStrField fields ("csrf") with
    | error e2 =>
      simp only [hc] at h
      injection h with h2
      subst h2
      exact optStrField_error_not_expired fields ("csrf") _ hc
    | ok c =>
      cases ht : optStrField fields ("transId") with
      | error e2 =>
        simp only [hc, ht] at h
        injection h with h2
        subst h2
        exact optStrField_error_not_expired fields ("transId") _ ht
      | ok t =>
        simp only [hc, ht] at h
        exact absurd h (by simp)
  next j2 hne =>
    injection h with h2
    subst h2
    rfl

lemma fromDictSelfAsserted_error_not_expired (j : Json) (e : PyErr)
    (h : fromDictSelfAsserted j = .error e) : e.isExpired = false := by
  unfold fromDictSelfAsserted at h
  split at h
  next fields =>
    split at h <;>
      first
        | (injection h with h2; subst h2; rfl)
        | simp_all [PyErr.isExpired]
  next j2 hne =>
    injection h with h2
    subst h2
    rfl

lemma fromDictApparatus_error_not_expired (j : Json) (e : PyErr)
    (h : fromDictApparatus j = .error e) : e.isExpired = false := by
  unfold fromDictApparatus at h
  split at h
  next fields =>
    split at h <;>
      first
        | (injection h with h2; subst h2; rfl)
        | simp_all [PyErr.isExpired]
  next j2 hne =>
    injection h with h2
    subst h2
    rfl

lemma fromDictApparatusDetail_error_not_expired (j : Json) (e : PyErr)
    (h : fromDictApparatusDetail j = .error e) : e.isExpired = false := by
  unfold fromDictApparatusDetail at h
  split at h <;>
    first
      | (injection h with h2; subst h2; rfl)
      | simp_all [PyErr.isExpired]

lemma submit_form_error_not_expired (env : HttpEnv) (page : String) (e : PyErr)
    (h : (submit_form env page).result = .error e) : e.isExpired = false := by
  unfold submit_form at h
  cases hs : env.soup page with
  | none =>
    simp only [hs] at h
    exact absurd h (by simp)
  | some triple =>
    obtain ⟨a, sv, cv⟩ := triple
    simp only [hs] at h
    by_cases hf : env.formPostStatus a ≠ 200
    · rw [if_pos hf] at h
      dsimp only at h
      injection h with h2
      subst h2
      rfl
    · rw [if_neg hf] at h
      dsimp only at h
      exact absurd h (by simp)

lemma get_setting_json_lines_error_not_expired (jl : String → Except String Json)
    (ls : List String) (e : PyErr)
    (h : get_setting_json_lines jl ls = .error e) : e.isExpired = false := by
  induction ls with
  | nil => exact absurd h (by simp [get_setting_json_lines])
  | cons l ls ih =>
    simp only [get_setting_json_lines] at h
    by_cases hc : (l.startsWith ("var SETTINGS = ") && l.endsWith (";")) = true
    · rw [if_pos hc] at h
      cases hj : jl ((l.drop (("var SETTINGS = ").length)).dropRight ((";").length)) with
      | ok j =>
        simp only [hj] at h
        exact absurd h (by simp)
      | error m =>
        simp only [hj] at h
        cases h
        rfl
    · rw [if_neg hc] at h
      exact ih h

lemma afterConfig_error_not_expired (env : HttpEnv) (st : ClientState)
    (c t : String) (e : PyErr)
    (h : (afterConfig env st c t).result.1 = .error e) : e.isExpired = false := by
  unfold afterConfig at h
  dsimp only at h
  by_cases h1 : env.selfAssertedStatus ≠ 200
  · rw [if_pos h1] at h
    cases h
    rfl
  · rw [if_neg h1] at h
    cases hj : env.jsonLoads env.selfAssertedText with
    | error m =>
      simp only [hj] at h
      cases h
      rfl
    | ok saj =>
      simp only [hj] at h
      cases hd : fromDictSelfAsserted saj with
      | error e2 =>
        simp only [hd] at h
        cases h
        exact fromDictSelfAsserted_error_not_expired saj _ hd
      | ok sa =>
        simp only [hd] at h
        by_cases h2 : sa.status ≠ ("200")
        · rw [if_pos h2] at h
          cases h
          rfl
        · rw [if_neg h2] at h
          by_cases h3 : env.confirmedStatus ≠ 200
          · rw [if_pos h3] at h
            cases h
            rfl
          · rw [if_neg h3] at h
            cases hs : (submit_form env env.confirmedText).result with
            | error e2 =>
              simp only [hs] at h
              cases h
              exact submit_form_error_not_expired env env.confirmedText _ hs
            | ok b =>
              cases b with
              | false =>
                simp only [hs] at h
                cases h
                rfl
              | true =>
                simp only [hs] at h
                exact absurd h (by simp)

lemma credential_login_error_not_expired (env : HttpEnv) (st : ClientState) (e : PyErr)
    (h : (credential_login env st).result.1 = .error e) : e.isExpired = false := by
  unfold credential_login at h
  by_cases hcred : (!(truthy st.username) || !(truthy st.password)) = true
  · rw [if_pos hcred] at h
    cases h
    rfl
  · rw [if_neg hcred] at h
    dsimp only at h
    cases hs : (submit_form env env.signInPage).result with
    | error e2 =>
      simp only [hs] at h
      cases h
      exact submit_form_error_not_expired env env.signInPage _ hs
    | ok b =>
      cases b with
      | true =>
        simp only [hs] at h
        exact absurd h (by simp)
      | false =>
        simp only [hs] at h
        cases hg : get_setting_json env.jsonLoads env.signInPage with
        | error e2 =>
          simp only [hg] at h
          cases h
          exact get_setting_json_lines_error_not_expired env.jsonLoads
            (splitlines env.signInPage) _ hg
        | ok og =>
          simp only [hg] at h
          cases og with
          | none =>
            cases h
            rfl
          | some m =>
            cases hf : fromDictSignInConfig m with
            | error e2 =>
              simp only [hf] at h
              cases h
              exact fromDictSignInConfig_error_not_expired m _ hf
            | ok cfg =>
              simp only [hf] at h
              cases hcc : cfg.csrf with
              | none =>
                simp only [hcc] at h
                cases h
                rfl
              | some cv =>
                cases htt : cfg.transId with
                | none =>
                  simp only [hcc, htt] at h
                  cases h
                  rfl
                | some tv =>
                  simp only [hcc, htt] at h
                  exact afterConfig_error_not_expired env st cv tv e h

lemma credential_login_not_expired_exc (env : HttpEnv) (st : ClientState) :
    isExpiredExc (credential_login env st).result.1 = false := by
  cases hc : (credential_login env st).result with
  | mk res st2 =>
    cases res with
    | ok u => simp [hc, isExpiredExc]
    | error e2 =>
      have he := credential_login_error_not_expired env st e2 (by rw [hc])
      simp [hc, isExpiredExc, he]

lemma login_result_not_expired (env : HttpEnv) (st : ClientState) :
    isExpiredExc (login env st).result.1 = false := by
  unfold login
  cases hm : st.auth_method with
  | token => rfl
  | username_password => exact credential_login_not_expired_exc env st
  | cookies =>
    cases he : get_endpoint env.net ("/v5/Apparatus/list") with
    | ok o =>
      cases o with
      | some j => rfl
      | none => exact credential_login_not_expired_exc env st
    | error e2 =>
      cases e2 with
      | sessionExpired m => exact credential_login_not_expired_exc env st
      | ioError m => rfl
      | invalidCredentials m => rfl
      | valueError m => rfl
      | typeError m => rfl
      | daciteError m => rfl

lemma async_one_step (fuel : Nat) (envs : Nat → HttpEnv) (attempt : Nat)
    (st : ClientState) :
    async_get_data (fuel + 1) envs attempt st = async_get_data 1 envs attempt st := by
  unfold async_get_data
  dsimp only
  by_cases hl : st.logged_in
  · simp [hl]
  · simp only [hl]
    cases hres : (login (envs attempt) st).result with
    | mk res st2 =>
      cases res with
      | ok u => simp [hres]
      | error e =>
        cases e with
        | sessionExpired m =>
          exfalso
          have hne := login_result_not_expired (envs attempt) st
          rw [hres] at hne
          simp [isExpiredExc, PyErr.isExpired] at hne
        | ioError m => simp [hres]
        | invalidCredentials m => simp [hres]
        | valueError m => simp [hres]
        | typeError m => simp [hres]
        | daciteError m => simp [hres]

def envExpiry : HttpEnv :=
  { net := fun _ => .resp 500 none, signInPage := (""),
    jsonLoads := fun _ => .error (""), soup := fun _ => none,
    formPostStatus := fun _ => 0, selfAssertedStatus := 0,
    selfAssertedText := (""), confirmedStatus := 0, confirmedText := ("") }

def stToken : ClientState := mkClient none none none (some ("tok"))

/-- C1 (code-bug evidence): in this code the retry-on-expiry wrapper can
    never fire.  At a concrete logged-in client whose data endpoint
    answers 500, the SessionExpiredException from the data fetch is
    surfaced directly to the caller after a single request — no retry —
    because get_generator_data runs outside the try block; login can
    never raise the expiry signal at all (its probe catches it), so the
    except/retry branch of async_get_data is unreachable and the whole
    operation never makes a second pass, contradicting the claimed
    one-retry-then-hard-failure policy. -/
theorem c1_expiry_never_retried :
    (async_get_data 3 (fun _ => envExpiry) 0 stToken =
      .out ⟨(.error (.sessionExpired ("API returned status code: 500 ")), stToken),
            [], [.list5]⟩) ∧
    (∀ env st, isExpiredExc (login env st).result.1 = false) ∧
    (∀ fuel envs attempt st,
      async_get_data (fuel + 1) envs attempt st = async_get_data 1 envs attempt st) :=
  ⟨rfl, login_result_not_expired, async_one_step⟩

lemma mkeys_dictInsert (m : ItemMap) (k : String) (v : Item) (x : String) :
    x ∈ mkeys (dictInsert m k v) ↔ x ∈ mkeys m ∨ x = k := by
  unfold dictInsert
  by_cases h : m.any (fun p => p.1 == k) = true
  · rw [if_pos h]
    have hk : k ∈ mkeys m := by
      rcases List.any_eq_true.mp h with ⟨p, hp, hpk⟩
      have hpe : p.1 = k := by simpa using hpk
      exact List.mem_map.mpr ⟨p, hp, hpe⟩
    have hmap : mkeys (m.map (fun p => if p.1 == k then (k, v) else p)) = mkeys m := by
      unfold mkeys
      rw [List.map_map]
      apply List.map_congr_left
      intro p hp
      by_cases hc : p.1 == k
      · have hpe : p.1 = k := by simpa using hc
        simp [hpe]
      · have hne : ¬(p.1 = k) := by simpa using hc
        simp [hne]
    rw [hmap]
    constructor
    · exact Or.inl
    · rintro (hx | rfl)
      · exact hx
      · exact hk
  · rw [if_neg h]
    unfold mkeys
    simp [List.map_append]

lemma processLoop_ok_keys (net : String → NetResponse) (xs : List Json) :
    ∀ (m m2 : ItemMap), (processLoop net xs m).result = .ok m2 →
      ∀ k, k ∈ mkeys m2 ↔
        (k ∈ mkeys m ∨
         ∃ j ∈ xs, ∃ it, (processApparatus net j).result = .ok (some (k, it))) := by
  induction xs with
  | nil =>
    intro m m2 h k
    unfold processLoop at h
    cases h
    simp
  | cons j js ih =>
    intro m m2 h k
    unfold processLoop at h
    dsimp only at h
    cases hs : (processApparatus net j).result with
    | error e =>
      simp only [hs] at h
      exact absurd h (by simp)
    | ok o =>
      cases o with
      | none =>
        simp only [hs] at h
        rw [ih m m2 h k]
        constructor
        · rintro (hm | ⟨j2, hj2, it, hit⟩)
          · exact Or.inl hm
          · exact Or.inr ⟨j2, List.mem_cons_of_mem _ hj2, it, hit⟩
        · rintro (hm | ⟨j2, hj2, it, hit⟩)
          · exact Or.inl hm
          · rcases List.mem_cons.mp hj2 with rfl | hj3
            · rw [hs] at hit
              exact absurd hit (by simp)
            · exact Or.inr ⟨j2, hj3, it, hit⟩
      | some kv =>
        obtain ⟨k0, it0⟩ := kv
        simp only [hs] at h
        rw [ih (dictInsert m k0 it0) m2 h k, mkeys_dictInsert]
        constructor
        · rintro ((hm | rfl) | ⟨j2, hj2, it, hit⟩)
          · exact Or.inl hm
          · exact Or.inr ⟨j, List.mem_cons_self j js, it0, hs⟩
          · exact Or.inr ⟨j2, List.mem_cons_of_mem _ hj2, it, hit⟩
        · rintro (hm | ⟨j2, hj2, it, hit⟩)
          · exact Or.inl (Or.inl hm)
          · rcases List.mem_cons.mp hj2 with rfl | hj3
            · rw [hs] at hit
              have hkv : k0 = k ∧ it0 = it := by simpa using hit
              exact Or.inl (Or.inr hkv.1.symm)
            · exact Or.inr ⟨j2, hj3, it, hit⟩

lemma processApparatus_yields_iff (net : String → NetResponse) (j : Json) (k : String) :
    (∃ it, (processApparatus net j).result = .ok (some (k, it))) ↔
      (∃ a, fromDictApparatus j = .ok a ∧ a.type = 0 ∧ k = pyStr a.apparatusId ∧
        ∃ dj, detailOf net a = .ok (some dj) ∧
          ∃ d, fromDictApparatusDetail dj = .ok d) := by
  unfold processApparatus detailOf
  cases hfa : fromDictApparatus j with
  | error e => simp [hfa]
  | ok a =>
    dsimp only
    by_cases ht : a.type ≠ 0
    · rw [if_pos ht]
      simp only [hfa]
      constructor
      · rintro ⟨it, hit⟩
        exact absurd hit (by simp)
      · rintro ⟨a2, ha2, ht2, _⟩
        injection ha2 with ha3
        subst ha3
        exact absurd ht2 ht
    · rw [if_neg ht]
      rw [not_not] at ht
      cases he5 : get_endpoint net (("/v5/Apparatus/") ++ pyStr a.apparatusId) with
      | error e => simp [hfa, he5]
      | ok o5 =>
        cases o5 with
        | some dj =>
          unfold entryOf
          cases hfd : fromDictApparatusDetail dj with
          | error e => simp [hfa, he5, hfd]
          | ok d =>
            simp only [hfa, he5, hfd]
            constructor
            · rintro ⟨it, hit⟩
              have hkv : pyStr a.apparatusId = k ∧ (⟨a, d⟩ : Item) = it := by
                simpa using hit
              exact ⟨a, rfl, ht, hkv.1.symm, dj, by simp [he5], d, hfd⟩
            · rintro ⟨a2, ha2, ht2, hk2, dj2, hdj2, d2, hd2⟩
              cases ha2
              simp only [he5] at hdj2
              have hdj3 : dj = dj2 := by simpa using hdj2
              subst hdj3
              exact ⟨⟨a, d⟩, by simp [hk2]⟩
        | none =>
          cases he1 : get_endpoint net (("/v1/Apparatus/details/") ++ pyStr a.apparatusId) with
          | error e => simp [hfa, he5, he1]
          | ok o1 =>
            cases o1 with
            | none => simp [hfa, he5, he1]
            | some dj =>
              unfold entryOf
              cases hfd : fromDictApparatusDetail dj with
              | error e => simp [hfa, he5, he1, hfd]
              | ok d =>
                simp only [hfa, he5, he1, hfd]
                constructor
                · rintro ⟨it, hit⟩
                  have hkv : pyStr a.apparatusId = k ∧ (⟨a, d⟩ : Item) = it := by
                    simpa using hit
                  exact ⟨a, rfl, ht, hkv.1.symm, dj, by simp [he5, he1], d, hfd⟩
                · rintro ⟨a2, ha2, ht2, hk2, dj2, hdj2, d2, hd2⟩
                  cases ha2
                  simp only [he5, he1] at hdj2
                  have hdj3 : dj = dj2 := by simpa using hdj2
                  subst hdj3
                  exact ⟨⟨a, d⟩, by simp [hk2]⟩

/-- C4: a successful fetch's mapping holds exactly the type-0 apparatuses
    whose detail fetch (v5 falling back to v1) yielded a parsed record;
    an apparatus of another type contributes nothing and triggers no
    detail request; an apparatus whose detail fetch yields no data from
    both generations is skipped without failing the fetch. -/
theorem c4_result_mapping (net : String → NetResponse) (xs : List Json) (m : ItemMap)
    (h5 : net ("/v5/Apparatus/list") = .resp 200 (some (Json.arr xs)))
    (hok : (get_generator_data net).result = .ok (some m)) :
    (∀ k, k ∈ mkeys m ↔
      ∃ j ∈ xs, ∃ a, fromDictApparatus j = .ok a ∧ a.type = 0 ∧
        k = pyStr a.apparatusId ∧ ∃ dj, detailOf net a = .ok (some dj) ∧
          ∃ d, fromDictApparatusDetail dj = .ok d) ∧
    (∀ j a, fromDictApparatus j = .ok a → a.type ≠ 0 →
      processApparatus net j =
        ⟨.ok none, [(.debug, ("Unknown apparatus type"))], []⟩) ∧
    (∀ j a, fromDictApparatus j = .ok a → a.type = 0 → detailOf net a = .ok none →
      (processApparatus net j).result = .ok none) := by
  have hep : get_endpoint net ("/v5/Apparatus/list") = .ok (some (Json.arr xs)) := by
    simp [get_endpoint, h5]
  have hred : (get_generator_data net).result =
      ((processLoop net xs []).result).map some := by
    unfold get_generator_data
    simp only [hep]
    rfl
  rw [hred] at hok
  have hpl : (processLoop net xs []).result = .ok m := by
    cases hq : (processLoop net xs []).result with
    | error e => rw [hq] at hok; exact absurd hok (by simp [Except.map])
    | ok m0 =>
      rw [hq] at hok
      have hmm : m0 = m := by simpa [Except.map] using hok
      rw [hmm]
  refine ⟨fun k => ?_, fun j2 a hfa hty => ?_, fun j2 a hfa hty hdet => ?_⟩
  · rw [processLoop_ok_keys net xs [] m hpl k]
    simp only [mkeys, List.map_nil, List.not_mem_nil, false_or]
    constructor
    · rintro ⟨j2, hj2, it, hit⟩
      obtain ⟨a, ha⟩ := (processApparatus_yields_iff net j2 k).mp ⟨it, hit⟩
      exact ⟨j2, hj2, a, ha⟩
    · rintro ⟨j2, hj2, a, ha⟩
      obtain ⟨it, hit⟩ := (processApparatus_yields_iff net j2 k).mpr ⟨a, ha⟩
      exact ⟨j2, hj2, it, hit⟩
  · unfold processApparatus
    simp only [hfa]
    rw [if_pos hty]
  · unfold detailOf at hdet
    cases he5 : get_endpoint net (("/v5/Apparatus/") ++ pyStr a.apparatusId) with
    | error e =>
      simp only [he5] at hdet
      exact absurd hdet (by simp)
    | ok o5 =>
      cases o5 with
      | some dj =>
        simp only [he5] at hdet
        exact absurd hdet (by simp)
      | none =>
        simp only [he5] at hdet
        unfold processApparatus
        simp only [hfa]
        rw [if_neg (by simp [hty])]
        simp only [he5, hdet]

def appJson (i ty : Int) : Json :=
  Json.obj [(("apparatusId"), Json.num i), (("type"), Json.num ty),
            (("name"), Json.str ("g"))]

def netC4 : String → NetResponse := fun p =>
  if p == ("/v5/Apparatus/list") then
    .resp 200 (some (.arr [appJson 1 0, appJson 2 1, appJson 3 0]))
  else if p == ("/v5/Apparatus/1") then .resp 200 (some (.obj []))
  else if p == ("/v5/Apparatus/3") then .resp 204 none
  else if p == ("/v1/Apparatus/details/3") then .resp 204 none
  else .netError

def mC4 : ItemMap := [(("1"), ⟨⟨1, 0, ("g")⟩, ⟨[]⟩⟩)]

theorem c4_witness :
    processApparatus netC4 (appJson 2 1) =
      ⟨.ok none, [(.debug, ("Unknown apparatus type"))], []⟩ ∧
    (processApparatus netC4 (appJson 3 0)).result = .ok none :=
  ⟨(c4_result_mapping netC4 [appJson 1 0, appJson 2 1, appJson 3 0] mC4 rfl rfl).2.1
      (appJson 2 1) ⟨2, 1, ("g")⟩ rfl (by decide),
   (c4_result_mapping netC4 [appJson 1 0, appJson 2 1, appJson 3 0] mC4 rfl rfl).2.2
      (appJson 3 0) ⟨3, 0, ("g")⟩ rfl rfl rfl⟩
